import Mathlib

/-!
Verification of the MAGE light-buffer pass (`LBufferPass`) and shadow-map
resource lifecycle, shallowly embedded from the C++ sources
(`lbuffer_pass.cpp`, `shadow_map_buffer.hpp`).

Modelling conventions:
* float scalars are idealized as exact rationals (the claims under study are
  structural: element counts, ordering, matrix composition, buffer identity);
* `XMMATRIX` / `XMVECTOR` become 4x4 / 3-component rational
  matrices/vectors with DirectXMath row-vector conventions;
* GPU object identity is tracked with a freshness counter so that "the
  backing buffer object is replaced" is observable;
* the device context becomes a command trace: every `UpdateData` /
  `BindSRVs` / `BindConstantBuffer` call appends a command.
-/

namespace MAGE

/-- Three-component vector (models `XMVECTOR` carrying a 3D point/direction,
and `XMFLOAT3` stores). Components idealized as exact rationals. -/
structure Vec3 where
  x : ℚ
  y : ℚ
  z : ℚ
deriving DecidableEq

/-- Four-component vector (models one `XMMATRIX` row / a homogeneous vector). -/
structure Vec4 where
  x : ℚ
  y : ℚ
  z : ℚ
  w : ℚ
deriving DecidableEq

/-- Row-major 4x4 matrix (models `XMMATRIX`, row-vector convention). -/
structure Mat where
  r0 : Vec4
  r1 : Vec4
  r2 : Vec4
  r3 : Vec4
deriving DecidableEq

def v4scale (c : ℚ) (v : Vec4) : Vec4 := ⟨c * v.x, c * v.y, c * v.z, c * v.w⟩

def v4add (a b : Vec4) : Vec4 := ⟨a.x + b.x, a.y + b.y, a.z + b.z, a.w + b.w⟩

/-- Row vector times matrix (as `XMVector4Transform`). -/
def v4mulMat (v : Vec4) (M : Mat) : Vec4 :=
  v4add (v4add (v4scale v.x M.r0) (v4scale v.y M.r1))
        (v4add (v4scale v.z M.r2) (v4scale v.w M.r3))

/-- Matrix product `A * B` in the source's row-vector convention
(as `XMMatrixMultiply`). -/
def matMul (A B : Mat) : Mat :=
  ⟨v4mulMat A.r0 B, v4mulMat A.r1 B, v4mulMat A.r2 B, v4mulMat A.r3 B⟩

def matTranspose (M : Mat) : Mat :=
  ⟨⟨M.r0.x, M.r1.x, M.r2.x, M.r3.x⟩,
   ⟨M.r0.y, M.r1.y, M.r2.y, M.r3.y⟩,
   ⟨M.r0.z, M.r1.z, M.r2.z, M.r3.z⟩,
   ⟨M.r0.w, M.r1.w, M.r2.w, M.r3.w⟩⟩

/-- Identity matrix (as `XMMatrixIdentity`). -/
def matIdentity : Mat :=
  ⟨⟨1, 0, 0, 0⟩, ⟨0, 1, 0, 0⟩, ⟨0, 0, 1, 0⟩, ⟨0, 0, 0, 1⟩⟩

/-- Transforms a direction, ignoring translation (as
`XMVector3TransformNormal`: `(x, y, z, 0) * M`). -/
def XMVector3TransformNormal (v : Vec3) (M : Mat) : Vec3 :=
  let h := v4mulMat ⟨v.x, v.y, v.z, 0⟩ M
  ⟨h.x, h.y, h.z⟩

/-- Transforms a point and divides by the homogeneous coordinate (as
`XMVector3TransformCoord`: `(x, y, z, 1) * M`, then the perspective divide).
Division by a zero `w` is totalized by rational division (the spec treats
degenerate transforms as a caller contract defect). -/
def XMVector3TransformCoord (v : Vec3) (M : Mat) : Vec3 :=
  let h := v4mulMat ⟨v.x, v.y, v.z, 1⟩ M
  ⟨h.x / h.w, h.y / h.w, h.z / h.w⟩

def natSqrtExact (n : ℕ) : Option ℕ :=
  let r := Nat.sqrt n
  if r * r = n then some r else none

/-- Exact rational square root, when it exists. -/
def ratSqrt (q : ℚ) : Option ℚ :=
  if q < 0 then none
  else
    match natSqrtExact q.num.toNat, natSqrtExact q.den with
    | some a, some b => some ((a : ℚ) / (b : ℚ))
    | _, _ => none

/-- Exact-arithmetic idealization of `XMVector3Normalize`. When the norm is
a rational number the vector is scaled by its inverse (a zero vector is
totalized to itself, mirroring the spec's treatment of degenerate content as
a caller defect); on the non-representable remainder the function returns
its argument unchanged. None of the claims proved in this development
depend on the value of this function. -/
def XMVector3Normalize (v : Vec3) : Vec3 :=
  match ratSqrt (v.x * v.x + v.y * v.y + v.z * v.z) with
  | some r => if r = 0 then v else ⟨v.x / r, v.y / r, v.z / r⟩
  | none => v

def v3neg (v : Vec3) : Vec3 := ⟨-v.x, -v.y, -v.z⟩

/-- Bounding sphere (as `BS`: center and radius). -/
structure BS where
  center : Vec3
  radius : ℚ
deriving DecidableEq

/-- Axis-aligned bounding box (as `AABB`: two corner points). -/
structure AABB where
  pmin : Vec3
  pmax : Vec3
deriving DecidableEq

/-- Modelled from the spec: the six clip-space frustum planes of a transform
(`ViewFrustum`'s plane construction is not under `src/`). With the
row-vector convention the planes `w + x ≥ 0`, `w - x ≥ 0`, `w + y ≥ 0`,
`w - y ≥ 0`, `z ≥ 0`, `w - z ≥ 0` pull back along `M` to sums/differences
of the matrix columns. -/
def frustumPlanes (M : Mat) : List Vec4 :=
  let c0 : Vec4 := ⟨M.r0.x, M.r1.x, M.r2.x, M.r3.x⟩
  let c1 : Vec4 := ⟨M.r0.y, M.r1.y, M.r2.y, M.r3.y⟩
  let c2 : Vec4 := ⟨M.r0.z, M.r1.z, M.r2.z, M.r3.z⟩
  let c3 : Vec4 := ⟨M.r0.w, M.r1.w, M.r2.w, M.r3.w⟩
  [v4add c3 c0, v4add c3 (v4scale (-1) c0),
   v4add c3 c1, v4add c3 (v4scale (-1) c1),
   c2, v4add c3 (v4scale (-1) c2)]

/-- Plane-point evaluation (as `XMPlaneDotCoord`). -/
def planeDotCoord (p : Vec4) (v : Vec3) : ℚ :=
  p.x * v.x + p.y * v.y + p.z * v.z + p.w

/-- Modelled from the spec: `ViewFrustum::Cull` for a bounding sphere
(implementation not under `src/`): a light is rejected only if its volume
lies entirely outside at least one of the six planes. -/
def ViewFrustumCullBS (M : Mat) (bs : BS) : Bool :=
  (frustumPlanes M).any (fun pl => planeDotCoord pl bs.center < -bs.radius)

def aabbCorners (b : AABB) : List Vec3 :=
  [⟨b.pmin.x, b.pmin.y, b.pmin.z⟩, ⟨b.pmin.x, b.pmin.y, b.pmax.z⟩,
   ⟨b.pmin.x, b.pmax.y, b.pmin.z⟩, ⟨b.pmin.x, b.pmax.y, b.pmax.z⟩,
   ⟨b.pmax.x, b.pmin.y, b.pmin.z⟩, ⟨b.pmax.x, b.pmin.y, b.pmax.z⟩,
   ⟨b.pmax.x, b.pmax.y, b.pmin.z⟩, ⟨b.pmax.x, b.pmax.y, b.pmax.z⟩]

/-- Modelled from the spec: `ViewFrustum::Cull` for an axis-aligned box
(implementation not under `src/`): rejected only if all corners lie outside
one plane. -/
def ViewFrustumCullAABB (M : Mat) (b : AABB) : Bool :=
  (frustumPlanes M).any
    (fun pl => (aabbCorners b).all (fun c => planeDotCoord pl c < 0))

/-- Transform data read from a scene node (`TransformNode` getters used by
the pass). -/
structure TransformNode where
  objectToWorld : Mat
  worldToObject : Mat
  worldForward : Vec3
  worldEye : Vec3
deriving DecidableEq

/-- Directional light data (`DirectionalLight` getters used by the pass). -/
structure DirectionalLight where
  intensity : ℚ
deriving DecidableEq

/-- Omni light data (`OmniLight` getters used by the pass). `viewToProjection`
is `GetLightCamera().GetViewToProjectionMatrix()`. -/
structure OmniLight where
  intensity : ℚ
  endDistanceFalloff : ℚ
  rangeDistanceFalloff : ℚ
  bs : BS
  viewToProjection : Mat
deriving DecidableEq

/-- Spot light data (`SpotLight` getters used by the pass). -/
structure SpotLight where
  intensity : ℚ
  exponentProperty : ℚ
  endDistanceFalloff : ℚ
  rangeDistanceFalloff : ℚ
  endAngularCutoff : ℚ
  rangeAngularCutoff : ℚ
  aabb : AABB
  viewToProjection : Mat
deriving DecidableEq

structure DirectionalLightNode where
  transform : TransformNode
  light : DirectionalLight
deriving DecidableEq

structure OmniLightNode where
  transform : TransformNode
  light : OmniLight
deriving DecidableEq

structure SpotLightNode where
  transform : TransformNode
  light : SpotLight
deriving DecidableEq

/-- Packed element for directional lights (`DirectionalLightBuffer`). -/
structure DirectionalLightBuffer where
  neg_d : Vec3
  I : ℚ
deriving DecidableEq

/-- Packed element for omni lights (`OmniLightBuffer`). -/
structure OmniLightBuffer where
  p : Vec3
  I : ℚ
  distance_falloff_end : ℚ
  distance_falloff_inv_range : ℚ
deriving DecidableEq

/-- Packed element for spot lights (`SpotLightBuffer`). -/
structure SpotLightBuffer where
  p : Vec3
  neg_d : Vec3
  I : ℚ
  exponent_property : ℚ
  distance_falloff_end : ℚ
  distance_falloff_inv_range : ℚ
  cos_umbra : ℚ
  cos_inv_range : ℚ
deriving DecidableEq

/-- Packed element for shadow-mapped directional lights
(`DirectionalLightWithShadowMappingBuffer`). -/
structure DirectionalLightWithShadowMappingBuffer where
  light : DirectionalLightBuffer
deriving DecidableEq

/-- Packed element for shadow-mapped omni lights
(`OmniLightWithShadowMappingBuffer`). -/
structure OmniLightWithShadowMappingBuffer where
  light : OmniLightBuffer
  cview_to_lview : Mat
deriving DecidableEq

/-- Packed element for shadow-mapped spot lights
(`SpotLightWithShadowMappingBuffer`). -/
structure SpotLightWithShadowMappingBuffer where
  light : SpotLightBuffer
  cview_to_lprojection : Mat
deriving DecidableEq

/-- Per-shadow-caster camera transforms (`LightCamera` in
`lbuffer_pass.cpp`). -/
structure LightCamera where
  world_to_lprojection : Mat
  world_to_lview : Mat
  lview_to_lprojection : Mat
deriving DecidableEq

/-- Rotation about the y-axis by an exact-angle idealization: cosine `c`,
sine `s` (as `XMMatrixRotationY` evaluated at multiples of pi/2). -/
def rotationY (c s : ℚ) : Mat :=
  ⟨⟨c, 0, -s, 0⟩, ⟨0, 1, 0, 0⟩, ⟨s, 0, c, 0⟩, ⟨0, 0, 0, 1⟩⟩

/-- Rotation about the x-axis by an exact-angle idealization: cosine `c`,
sine `s` (as `XMMatrixRotationX` evaluated at multiples of pi/2). -/
def rotationX (c s : ℚ) : Mat :=
  ⟨⟨1, 0, 0, 0⟩, ⟨0, c, s, 0⟩, ⟨0, -s, c, 0⟩, ⟨0, 0, 0, 1⟩⟩

/-- The six fixed cube-face rotations of
`LBufferPass::ProcessLightsWithShadowMapping` (omni), in array order:
looks along +x, -x, +y, -y, +z, -z. The trigonometric constants are
evaluated exactly at the ideal angles (the source uses float
approximations of pi/2 and pi). -/
def rotations : List Mat :=
  [rotationY 0 1,        -- XMMatrixRotationY( XM_PIDIV2), look +x
   rotationY 0 (-1),     -- XMMatrixRotationY(-XM_PIDIV2), look -x
   rotationX 0 (-1),     -- XMMatrixRotationX(-XM_PIDIV2), look +y
   rotationX 0 1,        -- XMMatrixRotationX( XM_PIDIV2), look -y
   matIdentity,          -- XMMatrixIdentity(),            look +z
   rotationY (-1) 0]     -- XMMatrixRotationY(XM_PI),      look -z

/-- Cull predicate of the omni loops: the light's bounding sphere tested
against `object_to_world * world_to_projection`. -/
def omniCulled (world_to_projection : Mat) (node : OmniLightNode) : Bool :=
  ViewFrustumCullBS (matMul node.transform.objectToWorld world_to_projection)
    node.light.bs

/-- Cull predicate of the spot loops: the light's AABB tested against
`object_to_world * world_to_projection`. -/
def spotCulled (world_to_projection : Mat) (node : SpotLightNode) : Bool :=
  ViewFrustumCullAABB (matMul node.transform.objectToWorld world_to_projection)
    node.light.aabb

/-- Loop body of `ProcessLights` (directional): view-space direction, then
the packed element. -/
def directionalLightBufferOf (world_to_view : Mat)
    (node : DirectionalLightNode) : DirectionalLightBuffer :=
  let d := XMVector3Normalize
    (XMVector3TransformNormal node.transform.worldForward world_to_view)
  ⟨v3neg d, node.light.intensity⟩

/-- Loop body of `ProcessLights` (omni), after the cull test. -/
def omniLightBufferOf (world_to_view : Mat) (node : OmniLightNode) :
    OmniLightBuffer :=
  let p := XMVector3TransformCoord node.transform.worldEye world_to_view
  ⟨p, node.light.intensity, node.light.endDistanceFalloff,
   1 / node.light.rangeDistanceFalloff⟩

/-- Loop body of `ProcessLights` (spot), after the cull test. -/
def spotLightBufferOf (world_to_view : Mat) (node : SpotLightNode) :
    SpotLightBuffer :=
  let p := XMVector3TransformCoord node.transform.worldEye world_to_view
  let d := XMVector3Normalize
    (XMVector3TransformNormal node.transform.worldForward world_to_view)
  ⟨p, v3neg d, node.light.intensity, node.light.exponentProperty,
   node.light.endDistanceFalloff, 1 / node.light.rangeDistanceFalloff,
   node.light.endAngularCutoff, 1 / node.light.rangeAngularCutoff⟩

/-- `LBufferPass::ProcessLights` for directional lights: no culling, one
`push_back` per node. -/
def processDirectionalLights (lights : List DirectionalLightNode)
    (world_to_view : Mat) : List DirectionalLightBuffer :=
  lights.foldl
    (fun acc node => acc ++ [directionalLightBufferOf world_to_view node]) []

/-- `LBufferPass::ProcessLights` for omni lights: cull (`continue`), else
`push_back`. -/
def processOmniLights (lights : List OmniLightNode)
    (world_to_projection world_to_view : Mat) : List OmniLightBuffer :=
  lights.foldl
    (fun acc node =>
      if omniCulled world_to_projection node then acc
      else acc ++ [omniLightBufferOf world_to_view node]) []

/-- `LBufferPass::ProcessLights` for spot lights: cull (`continue`), else
`push_back`. -/
def processSpotLights (lights : List SpotLightNode)
    (world_to_projection world_to_view : Mat) : List SpotLightBuffer :=
  lights.foldl
    (fun acc node =>
      if spotCulled world_to_projection node then acc
      else acc ++ [spotLightBufferOf world_to_view node]) []

/-- Loop body of `ProcessLightsWithShadowMapping` (directional): only the
packed element; the `cameras` vector receives nothing. -/
def directionalSMBufferOf (world_to_view : Mat)
    (node : DirectionalLightNode) : DirectionalLightWithShadowMappingBuffer :=
  ⟨directionalLightBufferOf world_to_view node⟩

/-- `LBufferPass::ProcessLightsWithShadowMapping` for directional lights.
The source declares and reserves a local `vector< LightCamera > cameras`
but the loop never pushes into it; the result pairs the packed buffer with
that (never-extended) camera list. -/
def processDirectionalLightsWithSM (lights : List DirectionalLightNode)
    (world_to_view view_to_world : Mat) :
    List DirectionalLightWithShadowMappingBuffer × List LightCamera :=
  lights.foldl
    (fun acc node =>
      (acc.1 ++ [directionalSMBufferOf world_to_view node], acc.2)) ([], [])

/-- The six cube-face cameras of one omni light:
`world_to_lview = GetWorldToObjectMatrix() * rotations[i]`, the shared
`lview_to_lprojection`, and their product. -/
def omniLightCamerasOf (node : OmniLightNode) : List LightCamera :=
  rotations.map (fun R =>
    let wlv := matMul node.transform.worldToObject R
    let lvp := node.light.viewToProjection
    ⟨matMul wlv lvp, wlv, lvp⟩)

/-- Loop body of `ProcessLightsWithShadowMapping` (omni), after the cull
test: packed element with `cview_to_lview = transpose(view_to_world *
world_to_lview)`. -/
def omniSMBufferOf (world_to_view view_to_world : Mat)
    (node : OmniLightNode) : OmniLightWithShadowMappingBuffer :=
  ⟨omniLightBufferOf world_to_view node,
   matTranspose (matMul view_to_world node.transform.worldToObject)⟩

/-- `LBufferPass::ProcessLightsWithShadowMapping` for omni lights: cull
(`continue`), else push six cameras and one packed element. Result:
(packed buffer, local `cameras` vector). -/
def processOmniLightsWithSM (lights : List OmniLightNode)
    (world_to_projection world_to_view view_to_world : Mat) :
    List OmniLightWithShadowMappingBuffer × List LightCamera :=
  lights.foldl
    (fun acc node =>
      if omniCulled world_to_projection node then acc
      else (acc.1 ++ [omniSMBufferOf world_to_view view_to_world node],
            acc.2 ++ omniLightCamerasOf node)) ([], [])

/-- The single camera of one spot light: `world_to_lview =
GetWorldToObjectMatrix()`, `lview_to_lprojection` the light's own
view-to-projection, and their product. -/
def spotLightCameraOf (node : SpotLightNode) : LightCamera :=
  let wlv := node.transform.worldToObject
  let lvp := node.light.viewToProjection
  ⟨matMul wlv lvp, wlv, lvp⟩

/-- Loop body of `ProcessLightsWithShadowMapping` (spot), after the cull
test: packed element with `cview_to_lprojection = transpose(view_to_world *
world_to_lprojection)`. -/
def spotSMBufferOf (world_to_view view_to_world : Mat)
    (node : SpotLightNode) : SpotLightWithShadowMappingBuffer :=
  ⟨spotLightBufferOf world_to_view node,
   matTranspose (matMul view_to_world
     (spotLightCameraOf node).world_to_lprojection)⟩

/-- `LBufferPass::ProcessLightsWithShadowMapping` for spot lights: cull
(`continue`), else push one camera and one packed element. Result:
(packed buffer, local `cameras` vector). -/
def processSpotLightsWithSM (lights : List SpotLightNode)
    (world_to_projection world_to_view view_to_world : Mat) :
    List SpotLightWithShadowMappingBuffer × List LightCamera :=
  lights.foldl
    (fun acc node =>
      if spotCulled world_to_projection node then acc
      else (acc.1 ++ [spotSMBufferOf world_to_view view_to_world node],
            acc.2 ++ [spotLightCameraOf node])) ([], [])

/-- Survivors of omni culling, in input order (the nodes the loops do not
`continue` past). -/
def omniSurvivors (world_to_projection : Mat) (lights : List OmniLightNode) :
    List OmniLightNode :=
  lights.filter (fun n => !omniCulled world_to_projection n)

/-- Survivors of spot culling, in input order. -/
def spotSurvivors (world_to_projection : Mat) (lights : List SpotLightNode) :
    List SpotLightNode :=
  lights.filter (fun n => !spotCulled world_to_projection n)

/-- GPU shadow-map buffer (`ShadowMapBuffer`): `id` models the C++ object
identity (which `unique_ptr` replacement changes), `dsvs` the number of
depth-stencil views, i.e. `m_dsvs.size()`. -/
structure ShadowMapBuffer where
  id : ℕ
  dsvs : ℕ
deriving DecidableEq

/-- `ShadowMapBuffer::GetNumberOfShadowMaps`: `m_dsvs.size()`. -/
def ShadowMapBuffer.GetNumberOfShadowMaps (b : ShadowMapBuffer) : ℕ := b.dsvs

/-- GPU cube shadow-map buffer (`ShadowCubeMapBuffer`). -/
structure ShadowCubeMapBuffer where
  id : ℕ
  dsvs : ℕ
deriving DecidableEq

/-- `ShadowCubeMapBuffer::GetNumberOfShadowMaps`: `m_dsvs.size()`. -/
def ShadowCubeMapBuffer.GetNumberOfShadowMaps (b : ShadowCubeMapBuffer) : ℕ :=
  b.dsvs

/-- `ShadowCubeMapBuffer::GetNumberOfShadowCubeMaps`: `m_dsvs.size() / 6`. -/
def ShadowCubeMapBuffer.GetNumberOfShadowCubeMaps (b : ShadowCubeMapBuffer) :
    ℕ :=
  b.dsvs / 6

/-- Modelled from the spec: the `ShadowMapBuffer` constructor
(`SetupShadowMapArray`, not under `src/`) creates one depth-stencil view
per requested shadow map. `id` is the fresh object identity. -/
def mkShadowMapBuffer (id nb_shadow_maps : ℕ) : ShadowMapBuffer :=
  ⟨id, nb_shadow_maps⟩

/-- Modelled from the spec: the `ShadowCubeMapBuffer` constructor
(`SetupShadowCubeMapArray`, not under `src/`) creates six depth-stencil
views (one per face) per requested cube map. -/
def mkShadowCubeMapBuffer (id nb_shadow_cube_maps : ℕ) : ShadowCubeMapBuffer :=
  ⟨id, 6 * nb_shadow_cube_maps⟩

/-- Fog parameters read from the scene (`SceneFog` getters used by
`ProcessLightsData`). -/
structure Fog where
  intensity : ℚ
  startDistanceFalloff : ℚ
  rangeDistanceFalloff : ℚ
deriving DecidableEq

/-- The scene data consumed by `LBufferPass::Render` (the `PassBuffer`
getters used by the pass). -/
structure PassBufferData where
  directional_lights : List DirectionalLightNode
  omni_lights : List OmniLightNode
  spot_lights : List SpotLightNode
  sm_directional_lights : List DirectionalLightNode
  sm_omni_lights : List OmniLightNode
  sm_spot_lights : List SpotLightNode
  ambient : ℚ
  fog : Fog
deriving DecidableEq

/-- The aggregate stats uniform buffer (`LightBuffer` in `buffer.hpp`):
ambient, fog parameters, and six `uint32_t` count fields. The
`static_cast< uint32_t >` of the source is modelled by `% 2 ^ 32`. -/
structure LightBuffer where
  Ia : ℚ
  fog_color : ℚ
  fog_distance_falloff_start : ℚ
  fog_distance_falloff_inv_range : ℚ
  nb_directional_lights : ℕ
  nb_omni_lights : ℕ
  nb_spot_lights : ℕ
  nb_sm_directional_lights : ℕ
  nb_sm_omni_lights : ℕ
  nb_sm_spot_lights : ℕ
deriving DecidableEq

/-- Zero-initialized aggregate stats buffer (the dynamic constant buffer's
contents before the first `UpdateData`). -/
def initLightBuffer : LightBuffer := ⟨0, 0, 0, 0, 0, 0, 0, 0, 0, 0⟩

/-- Pipeline stage receiving a binding (`Pipeline::PS` / `Pipeline::CS`). -/
inductive Stage
  | ps
  | cs
deriving DecidableEq

/-- Shader-resource-view value bound to a slot. Structured-buffer views are
identified by the owning member; shadow-map array views by the owning
buffer object's identity (so a view changes exactly when the buffer is
replaced). -/
inductive SRVRef
  | noView
  | dirLightsView
  | omniLightsView
  | spotLightsView
  | smDirLightsView
  | smOmniLightsView
  | smSpotLightsView
  | smBufferView (id : ℕ)
deriving DecidableEq

/-- The six structured buffers of the pass. -/
inductive BufKind
  | dir
  | omni
  | spot
  | smDir
  | smOmni
  | smSpot
deriving DecidableEq

/-- One device-context call observable from outside the pass. -/
inductive Command
  | bindSRVs (stage : Stage) (slot : ℕ) (srvs : List SRVRef)
  | bindConstantBuffer (stage : Stage) (slot : ℕ)
  | updateStructured (kind : BufKind) (count : ℕ)
  | updateLightBuffer (b : LightBuffer)
deriving DecidableEq

/-- Modelled from the spec: fixed slot layout (`hlsl.hpp` is not under
`src/`). The nine light SRVs start at slot 0 ... -/
def SLOT_SRV_LIGHTS_START : ℕ := 0

/-- Modelled from the spec: ... so the three shadow-map array SRVs, which
are the last three of the nine, start at slot 6. -/
def SLOT_SRV_SHADOW_MAPS_START : ℕ := 6

/-- Modelled from the spec: the lighting constant-buffer slot. -/
def SLOT_CBUFFER_LIGHTING : ℕ := 0

/-- The member state of `LBufferPass`. Structured buffers hold the element
list of their last `UpdateData` (their `size()` is its length); `nextId`
is the freshness counter backing the object-identity model. -/
structure LBufferPassState where
  light_buffer : LightBuffer
  directional_lights : List DirectionalLightBuffer
  omni_lights : List OmniLightBuffer
  spot_lights : List SpotLightBuffer
  sm_directional_lights : List DirectionalLightWithShadowMappingBuffer
  sm_omni_lights : List OmniLightWithShadowMappingBuffer
  sm_spot_lights : List SpotLightWithShadowMappingBuffer
  directional_sms : ShadowMapBuffer
  omni_sms : ShadowCubeMapBuffer
  spot_sms : ShadowMapBuffer
  nextId : ℕ
deriving DecidableEq

/-- `LBufferPass::LBufferPass`: the three shadow-map buffers are
default-constructed (`MakeUnique< ... >()`, i.e. one shadow map / one cube
map). -/
def initLBufferPassState : LBufferPassState :=
  { light_buffer := initLightBuffer
  , directional_lights := []
  , omni_lights := []
  , spot_lights := []
  , sm_directional_lights := []
  , sm_omni_lights := []
  , sm_spot_lights := []
  , directional_sms := mkShadowMapBuffer 0 1
  , omni_sms := mkShadowCubeMapBuffer 1 1
  , spot_sms := mkShadowMapBuffer 2 1
  , nextId := 3 }

/-- `LBufferPass::SetupDirectionalShadowMaps`: grow-only replacement.
`GetNumberOfDirectionalLightsWithShadowMapping` (not under `src/`) is
modelled from the spec as the size of the shadow-mapped directional
structured buffer. -/
def SetupDirectionalShadowMaps (st : LBufferPassState) : LBufferPassState :=
  let nb_requested := st.sm_directional_lights.length
  let nb_available := st.directional_sms.GetNumberOfShadowMaps
  if nb_available < nb_requested then
    { st with directional_sms := mkShadowMapBuffer st.nextId nb_requested
            , nextId := st.nextId + 1 }
  else st

/-- `LBufferPass::SetupOmniShadowMaps`: grow-only replacement keyed on the
cube-map count. -/
def SetupOmniShadowMaps (st : LBufferPassState) : LBufferPassState :=
  let nb_requested := st.sm_omni_lights.length
  let nb_available := st.omni_sms.GetNumberOfShadowCubeMaps
  if nb_available < nb_requested then
    { st with omni_sms := mkShadowCubeMapBuffer st.nextId nb_requested
            , nextId := st.nextId + 1 }
  else st

/-- `LBufferPass::SetupSpotShadowMaps`: grow-only replacement. -/
def SetupSpotShadowMaps (st : LBufferPassState) : LBufferPassState :=
  let nb_requested := st.sm_spot_lights.length
  let nb_available := st.spot_sms.GetNumberOfShadowMaps
  if nb_available < nb_requested then
    { st with spot_sms := mkShadowMapBuffer st.nextId nb_requested
            , nextId := st.nextId + 1 }
  else st

/-- Pass-level `ProcessLights` (directional): pack, then `UpdateData`. -/
def ProcessLightsDirectional (st : LBufferPassState)
    (lights : List DirectionalLightNode) (world_to_view : Mat) :
    LBufferPassState × List Command :=
  let buffer := processDirectionalLights lights world_to_view
  ({ st with directional_lights := buffer },
   [Command.updateStructured BufKind.dir buffer.length])

/-- Pass-level `ProcessLights` (omni). -/
def ProcessLightsOmni (st : LBufferPassState) (lights : List OmniLightNode)
    (world_to_projection world_to_view : Mat) :
    LBufferPassState × List Command :=
  let buffer := processOmniLights lights world_to_projection world_to_view
  ({ st with omni_lights := buffer },
   [Command.updateStructured BufKind.omni buffer.length])

/-- Pass-level `ProcessLights` (spot). -/
def ProcessLightsSpot (st : LBufferPassState) (lights : List SpotLightNode)
    (world_to_projection world_to_view : Mat) :
    LBufferPassState × List Command :=
  let buffer := processSpotLights lights world_to_projection world_to_view
  ({ st with spot_lights := buffer },
   [Command.updateStructured BufKind.spot buffer.length])

/-- Pass-level `ProcessLightsWithShadowMapping` (directional): pack,
`UpdateData`, then `SetupDirectionalShadowMaps`. -/
def ProcessLightsWithShadowMappingDirectional (st : LBufferPassState)
    (lights : List DirectionalLightNode) (world_to_view view_to_world : Mat) :
    LBufferPassState × List Command :=
  let bc := processDirectionalLightsWithSM lights world_to_view view_to_world
  let st1 := { st with sm_directional_lights := bc.1 }
  (SetupDirectionalShadowMaps st1,
   [Command.updateStructured BufKind.smDir bc.1.length])

/-- Pass-level `ProcessLightsWithShadowMapping` (omni): pack, `UpdateData`,
then `SetupOmniShadowMaps`. -/
def ProcessLightsWithShadowMappingOmni (st : LBufferPassState)
    (lights : List OmniLightNode)
    (world_to_projection world_to_view view_to_world : Mat) :
    LBufferPassState × List Command :=
  let bc := processOmniLightsWithSM lights world_to_projection world_to_view
    view_to_world
  let st1 := { st with sm_omni_lights := bc.1 }
  (SetupOmniShadowMaps st1,
   [Command.updateStructured BufKind.smOmni bc.1.length])

/-- Pass-level `ProcessLightsWithShadowMapping` (spot): pack, `UpdateData`,
then `SetupSpotShadowMaps`. -/
def ProcessLightsWithShadowMappingSpot (st : LBufferPassState)
    (lights : List SpotLightNode)
    (world_to_projection world_to_view view_to_world : Mat) :
    LBufferPassState × List Command :=
  let bc := processSpotLightsWithSM lights world_to_projection world_to_view
    view_to_world
  let st1 := { st with sm_spot_lights := bc.1 }
  (SetupSpotShadowMaps st1,
   [Command.updateStructured BufKind.smSpot bc.1.length])

/-- `LBufferPass::ProcessLightsData`: reads the six structured-buffer sizes
(each a `size()` cast to `uint32_t`) and the scene's ambient/fog data, and
uploads the aggregate stats buffer. -/
def ProcessLightsData (st : LBufferPassState) (scene : PassBufferData) :
    LBufferPassState × List Command :=
  let b : LightBuffer :=
    { Ia := scene.ambient
    , fog_color := scene.fog.intensity
    , fog_distance_falloff_start := scene.fog.startDistanceFalloff
    , fog_distance_falloff_inv_range := 1 / scene.fog.rangeDistanceFalloff
    , nb_directional_lights := st.directional_lights.length % 2 ^ 32
    , nb_omni_lights := st.omni_lights.length % 2 ^ 32
    , nb_spot_lights := st.spot_lights.length % 2 ^ 32
    , nb_sm_directional_lights := st.sm_directional_lights.length % 2 ^ 32
    , nb_sm_omni_lights := st.sm_omni_lights.length % 2 ^ 32
    , nb_sm_spot_lights := st.sm_spot_lights.length % 2 ^ 32 }
  ({ st with light_buffer := b }, [Command.updateLightBuffer b])

/-- `LBufferPass::UnbindSMSs`: three null views at the shadow-map slots, on
the pixel stage and on the compute stage. -/
def UnbindSMSs : List Command :=
  [Command.bindSRVs Stage.ps SLOT_SRV_SHADOW_MAPS_START
     [SRVRef.noView, SRVRef.noView, SRVRef.noView],
   Command.bindSRVs Stage.cs SLOT_SRV_SHADOW_MAPS_START
     [SRVRef.noView, SRVRef.noView, SRVRef.noView]]

/-- The nine shader-resource views of `LBufferPass::BindLBuffer`, in slot
order. -/
def lbufferSRVs (st : LBufferPassState) : List SRVRef :=
  [SRVRef.dirLightsView, SRVRef.omniLightsView, SRVRef.spotLightsView,
   SRVRef.smDirLightsView, SRVRef.smOmniLightsView, SRVRef.smSpotLightsView,
   SRVRef.smBufferView st.directional_sms.id,
   SRVRef.smBufferView st.omni_sms.id,
   SRVRef.smBufferView st.spot_sms.id]

/-- `LBufferPass::BindLBuffer`: the lighting constant buffer and the nine
SRVs, bound to the pixel stage and to the compute stage. -/
def BindLBuffer (st : LBufferPassState) : List Command :=
  [Command.bindConstantBuffer Stage.ps SLOT_CBUFFER_LIGHTING,
   Command.bindConstantBuffer Stage.cs SLOT_CBUFFER_LIGHTING,
   Command.bindSRVs Stage.ps SLOT_SRV_LIGHTS_START (lbufferSRVs st),
   Command.bindSRVs Stage.cs SLOT_SRV_LIGHTS_START (lbufferSRVs st)]

/-- One frame's inputs to `LBufferPass::Render`. -/
structure FrameInput where
  scene : PassBufferData
  world_to_projection : Mat
  world_to_view : Mat
  view_to_world : Mat
deriving DecidableEq

/-- `LBufferPass::Render`: the frame sequence of the pass, returning the new
member state and the trace of device-context calls in program order. -/
def Render (st : LBufferPassState) (f : FrameInput) :
    LBufferPassState × List Command :=
  let s := f.scene
  let r1 := ProcessLightsDirectional st s.directional_lights f.world_to_view
  let r2 := ProcessLightsOmni r1.1 s.omni_lights f.world_to_projection
    f.world_to_view
  let r3 := ProcessLightsSpot r2.1 s.spot_lights f.world_to_projection
    f.world_to_view
  let r4 := ProcessLightsWithShadowMappingDirectional r3.1
    s.sm_directional_lights f.world_to_view f.view_to_world
  let r5 := ProcessLightsWithShadowMappingOmni r4.1 s.sm_omni_lights
    f.world_to_projection f.world_to_view f.view_to_world
  let r6 := ProcessLightsWithShadowMappingSpot r5.1 s.sm_spot_lights
    f.world_to_projection f.world_to_view f.view_to_world
  let r7 := ProcessLightsData r6.1 s
  (r7.1,
   r1.2 ++ r2.2 ++ r3.2 ++ UnbindSMSs ++ r4.2 ++ r5.2 ++ r6.2 ++ r7.2
     ++ BindLBuffer r7.1)

/-- Iterated frames: the pass state after rendering each frame of `frames`
in order, starting from `st`. -/
def renderFrames (st : LBufferPassState) (frames : List FrameInput) :
    LBufferPassState :=
  frames.foldl (fun s f => (Render s f).1) st

/-- One shadow-map allocator category (`{buffer, freshness counter}`): the
state the spec's `EnsureCapacity` machine acts on, extracted from the pass
state (the pass's per-category `Setup...ShadowMaps` all follow this guarded
replacement). -/
structure SMAlloc where
  buf : ShadowMapBuffer
  nextId : ℕ
deriving DecidableEq

/-- Cube-map variant of the allocator category. -/
structure SMCubeAlloc where
  buf : ShadowCubeMapBuffer
  nextId : ℕ
deriving DecidableEq

/-- The spec's `EnsureCapacity(n)` for a plain shadow-map category: the body
of `SetupDirectionalShadowMaps` / `SetupSpotShadowMaps` with request `n`. -/
def ensureCapacity (a : SMAlloc) (n : ℕ) : SMAlloc :=
  if a.buf.GetNumberOfShadowMaps < n then
    ⟨mkShadowMapBuffer a.nextId n, a.nextId + 1⟩
  else a

/-- The spec's `EnsureCapacity(n)` for the cube-map category: the body of
`SetupOmniShadowMaps` with request `n`. -/
def ensureCubeCapacity (a : SMCubeAlloc) (n : ℕ) : SMCubeAlloc :=
  if a.buf.GetNumberOfShadowCubeMaps < n then
    ⟨mkShadowCubeMapBuffer a.nextId n, a.nextId + 1⟩
  else a

/-- A sequence of capacity requests, applied in order. -/
def ensureCapacitySeq (a : SMAlloc) (ns : List ℕ) : SMAlloc :=
  ns.foldl ensureCapacity a

/-- A sequence of cube capacity requests, applied in order. -/
def ensureCubeCapacitySeq (a : SMCubeAlloc) (ns : List ℕ) : SMCubeAlloc :=
  ns.foldl ensureCubeCapacity a

/-- Default-constructed plain category (`MakeUnique< ShadowMapBuffer >()`,
one shadow map). -/
def initSMAlloc : SMAlloc := ⟨mkShadowMapBuffer 0 1, 1⟩

/-- Default-constructed cube category (`MakeUnique< ShadowCubeMapBuffer >()`,
one cube map, six slices). -/
def initSMCubeAlloc : SMCubeAlloc := ⟨mkShadowCubeMapBuffer 0 1, 1⟩

/-- Capacity of a plain category. -/
def smCapacity (a : SMAlloc) : ℕ := a.buf.GetNumberOfShadowMaps

/-- Capacity (in cube maps) of the cube category. -/
def smCubeCapacity (a : SMCubeAlloc) : ℕ := a.buf.GetNumberOfShadowCubeMaps

/-- Maximum of a request sequence (zero when empty). -/
def maxRequest (ns : List ℕ) : ℕ := ns.foldl Nat.max 0

/-- Sample transform: identity matrices, forward `+z`, eye at the origin. -/
def sampleTransform : TransformNode :=
  ⟨matIdentity, matIdentity, ⟨0, 0, 1⟩, ⟨0, 0, 0⟩⟩

/-- Sample directional light node. -/
def sampleDirectionalNode : DirectionalLightNode := ⟨sampleTransform, ⟨1⟩⟩

/-- Sample omni light node: unit bounding sphere at the origin (inside the
canonical frustum, hence never culled under the identity transform). -/
def sampleOmniNode : OmniLightNode :=
  ⟨sampleTransform, ⟨1, 1, 1, ⟨⟨0, 0, 0⟩, 1⟩, matIdentity⟩⟩

/-- Sample spot light node: unit box at the origin. -/
def sampleSpotNode : SpotLightNode :=
  ⟨sampleTransform, ⟨1, 1, 1, 1, 1, 1, ⟨⟨-1, -1, -1⟩, ⟨1, 1, 1⟩⟩, matIdentity⟩⟩

/-- Modelled from the spec: `Setup...ShadowMaps` with fallible GPU buffer
construction (the constructor's `SetupShadowMapArray` and its failure path
are not under `src/`; the spec states construction can fail). `alloc`
decides whether the device can create `n` shadow maps. Per C++
move-assignment semantics the `MakeUnique` right-hand side is fully
constructed before the member is assigned, so a throwing constructor
leaves the member untouched and propagates the error (modelled as the
`Option` error component, with the state returned unchanged). -/
def ensureCapacityFallible (alloc : ℕ → Bool) (a : SMAlloc) (n : ℕ) :
    SMAlloc × Option Unit :=
  if a.buf.GetNumberOfShadowMaps < n then
    if alloc n then (⟨mkShadowMapBuffer a.nextId n, a.nextId + 1⟩, none)
    else (a, some ())
  else (a, none)

/-- The pass state outside the directional shadow category: every member
except the shadow-mapped directional structured buffer, the directional
shadow-map buffer, and the freshness counter (a modelling artifact of
object identity). -/
def exceptDirShadowState (st : LBufferPassState) :=
  (st.light_buffer, st.directional_lights, st.omni_lights, st.spot_lights,
   st.sm_omni_lights, st.sm_spot_lights, st.omni_sms, st.spot_sms)

/-- The pass state outside the omni shadow category. -/
def exceptOmniShadowState (st : LBufferPassState) :=
  (st.light_buffer, st.directional_lights, st.omni_lights, st.spot_lights,
   st.sm_directional_lights, st.sm_spot_lights, st.directional_sms,
   st.spot_sms)

/-- The pass state outside the spot shadow category. -/
def exceptSpotShadowState (st : LBufferPassState) :=
  (st.light_buffer, st.directional_lights, st.omni_lights, st.spot_lights,
   st.sm_directional_lights, st.sm_omni_lights, st.directional_sms,
   st.omni_sms)

/-- The shadow-map capacity invariant of the pass state: at least one plain
shadow map per plain category, and a positive multiple of six slices in the
cube buffer. -/
def SMInv (st : LBufferPassState) : Prop :=
  1 ≤ st.directional_sms.dsvs ∧ 1 ≤ st.spot_sms.dsvs
    ∧ 6 ≤ st.omni_sms.dsvs ∧ st.omni_sms.dsvs % 6 = 0

/-- A scene with no lights (used for concrete-instance witnesses). -/
def emptyScene : PassBufferData := ⟨[], [], [], [], [], [], 0, ⟨0, 0, 1⟩⟩

/-- A frame over the empty scene with identity transforms. -/
def sampleFrame : FrameInput := ⟨emptyScene, matIdentity, matIdentity,
  matIdentity⟩

theorem smCapacity_ensureCapacity (a : SMAlloc) (n : ℕ) :
    smCapacity (ensureCapacity a n) = Nat.max (smCapacity a) n := by
  unfold ensureCapacity smCapacity mkShadowMapBuffer
    ShadowMapBuffer.GetNumberOfShadowMaps
  split <;> simp <;> omega

theorem smCubeCapacity_ensureCubeCapacity (a : SMCubeAlloc) (n : ℕ) :
    smCubeCapacity (ensureCubeCapacity a n) = Nat.max (smCubeCapacity a) n := by
  unfold ensureCubeCapacity smCubeCapacity mkShadowCubeMapBuffer
    ShadowCubeMapBuffer.GetNumberOfShadowCubeMaps
  split <;> simp <;> omega

theorem smCapacity_ensureCapacitySeq (a : SMAlloc) (ns : List ℕ) :
    smCapacity (ensureCapacitySeq a ns) = ns.foldl Nat.max (smCapacity a) := by
  induction ns generalizing a with
  | nil => rfl
  | cons n ns ih =>
      simp only [ensureCapacitySeq, List.foldl_cons] at *
      rw [ih, smCapacity_ensureCapacity]

theorem smCubeCapacity_ensureCubeCapacitySeq (a : SMCubeAlloc) (ns : List ℕ) :
    smCubeCapacity (ensureCubeCapacitySeq a ns)
      = ns.foldl Nat.max (smCubeCapacity a) := by
  induction ns generalizing a with
  | nil => rfl
  | cons n ns ih =>
      simp only [ensureCubeCapacitySeq, List.foldl_cons] at *
      rw [ih, smCubeCapacity_ensureCubeCapacity]

theorem foldl_max_eq_max (ns : List ℕ) (a : ℕ) :
    ns.foldl Nat.max a = Nat.max a (maxRequest ns) := by
  induction ns generalizing a with
  | nil => simp [maxRequest]
  | cons n ns ih =>
      simp only [maxRequest, List.foldl_cons] at *
      rw [ih, ih (Nat.max 0 n)]
      simp [Nat.max_assoc]

theorem mem_le_maxRequest {m : ℕ} {ns : List ℕ} (h : m ∈ ns) :
    m ≤ maxRequest ns := by
  induction ns with
  | nil => cases h
  | cons n ns ih =>
      simp only [maxRequest, List.foldl_cons] at *
      rw [foldl_max_eq_max]
      rcases List.mem_cons.mp h with rfl | hm
      · exact le_trans (Nat.le_max_right 0 m) (Nat.le_max_left _ _)
      · exact le_trans (ih hm) (Nat.le_max_right _ _)

theorem ensureCapacity_of_le (a : SMAlloc) (n : ℕ)
    (h : n ≤ smCapacity a) : ensureCapacity a n = a := by
  unfold ensureCapacity
  rw [if_neg]
  unfold smCapacity at h
  omega

theorem ensureCubeCapacity_of_le (a : SMCubeAlloc) (n : ℕ)
    (h : n ≤ smCubeCapacity a) : ensureCubeCapacity a n = a := by
  unfold ensureCubeCapacity
  rw [if_neg]
  unfold smCubeCapacity at h
  omega

theorem ensureCapacity_buf_changed (a : SMAlloc) (n : ℕ)
    (h : (ensureCapacity a n).buf ≠ a.buf) : smCapacity a < n := by
  by_contra hc
  exact h (by rw [ensureCapacity_of_le a n (by omega)])

theorem ensureCubeCapacity_buf_changed (a : SMCubeAlloc) (n : ℕ)
    (h : (ensureCubeCapacity a n).buf ≠ a.buf) : smCubeCapacity a < n := by
  by_contra hc
  exact h (by rw [ensureCubeCapacity_of_le a n (by omega)])

theorem foldl_push_eq {α β : Type} (f : α → β) (lights : List α)
    (acc : List β) :
    lights.foldl (fun a n => a ++ [f n]) acc = acc ++ lights.map f := by
  induction lights generalizing acc with
  | nil => simp
  | cons x xs ih => simp [ih]

theorem foldl_filter_push_eq {α β : Type} (p : α → Bool) (f : α → β)
    (lights : List α) (acc : List β) :
    lights.foldl (fun a n => if p n then a else a ++ [f n]) acc
      = acc ++ (lights.filter (fun n => !p n)).map f := by
  induction lights generalizing acc with
  | nil => simp
  | cons x xs ih =>
      simp only [List.foldl_cons, List.filter_cons]
      by_cases hp : p x
      · simp [hp, ih]
      · simp [hp, ih]

theorem foldl_pair_push_eq {α β γ : Type} (p : α → Bool) (f : α → β)
    (g : α → List γ) (lights : List α) (acc : List β × List γ) :
    lights.foldl
      (fun a n => if p n then a else (a.1 ++ [f n], a.2 ++ g n)) acc
      = (acc.1 ++ (lights.filter (fun n => !p n)).map f,
         acc.2 ++ (lights.filter (fun n => !p n)).flatMap g) := by
  induction lights generalizing acc with
  | nil => simp
  | cons x xs ih =>
      simp only [List.foldl_cons, List.filter_cons]
      by_cases hp : p x
      · simp [hp, ih]
      · simp [hp, ih]

theorem foldl_pair_first_eq {α β γ : Type} (f : α → β) (lights : List α)
    (acc : List β × List γ) :
    lights.foldl (fun a n => (a.1 ++ [f n], a.2)) acc
      = (acc.1 ++ lights.map f, acc.2) := by
  induction lights generalizing acc with
  | nil => simp
  | cons x xs ih => simp [ih]

theorem processDirectionalLights_eq (lights : List DirectionalLightNode)
    (world_to_view : Mat) :
    processDirectionalLights lights world_to_view
      = lights.map (directionalLightBufferOf world_to_view) := by
  unfold processDirectionalLights
  rw [foldl_push_eq]
  simp

theorem processOmniLights_eq (lights : List OmniLightNode)
    (world_to_projection world_to_view : Mat) :
    processOmniLights lights world_to_projection world_to_view
      = (omniSurvivors world_to_projection lights).map
          (omniLightBufferOf world_to_view) := by
  unfold processOmniLights omniSurvivors
  rw [foldl_filter_push_eq]
  simp

theorem processSpotLights_eq (lights : List SpotLightNode)
    (world_to_projection world_to_view : Mat) :
    processSpotLights lights world_to_projection world_to_view
      = (spotSurvivors world_to_projection lights).map
          (spotLightBufferOf world_to_view) := by
  unfold processSpotLights spotSurvivors
  rw [foldl_filter_push_eq]
  simp

theorem processDirectionalLightsWithSM_eq (lights : List DirectionalLightNode)
    (world_to_view view_to_world : Mat) :
    processDirectionalLightsWithSM lights world_to_view view_to_world
      = (lights.map (directionalSMBufferOf world_to_view), []) := by
  unfold processDirectionalLightsWithSM
  rw [foldl_pair_first_eq]
  simp

theorem processOmniLightsWithSM_eq (lights : List OmniLightNode)
    (world_to_projection world_to_view view_to_world : Mat) :
    processOmniLightsWithSM lights world_to_projection world_to_view
        view_to_world
      = ((omniSurvivors world_to_projection lights).map
           (omniSMBufferOf world_to_view view_to_world),
         (omniSurvivors world_to_projection lights).flatMap
           omniLightCamerasOf) := by
  unfold processOmniLightsWithSM omniSurvivors
  rw [foldl_pair_push_eq]
  simp

theorem processSpotLightsWithSM_eq (lights : List SpotLightNode)
    (world_to_projection world_to_view view_to_world : Mat) :
    processSpotLightsWithSM lights world_to_projection world_to_view
        view_to_world
      = ((spotSurvivors world_to_projection lights).map
           (spotSMBufferOf world_to_view view_to_world),
         (spotSurvivors world_to_projection lights).map
           spotLightCameraOf) := by
  unfold processSpotLightsWithSM spotSurvivors
  rw [foldl_pair_push_eq]
  simp only [List.nil_append]
  refine congrArg _ ?_
  have h := List.flatMap_pure_eq_map spotLightCameraOf
    (List.filter (fun n => !spotCulled world_to_projection n) lights)
  simpa [Function.comp] using h

theorem length_bind_omniLightCamerasOf (survivors : List OmniLightNode) :
    (survivors.flatMap omniLightCamerasOf).length = 6 * survivors.length := by
  induction survivors with
  | nil => rfl
  | cons x xs ih =>
      simp only [List.flatMap_cons, List.length_append, ih]
      have hlen : (omniLightCamerasOf x).length = 6 := by
        simp [omniLightCamerasOf, rotations]
      rw [hlen]
      simp only [List.length_cons]
      ring

/-- Claim C1 counterexample: starting from the default-constructed buffer
(one shadow map), the request sequence `[0]` leaves the capacity at 1,
whereas `max(n_1) = 0`; so "capacity after step i equals max(n_1, ..., n_i)"
fails as stated. -/
theorem growOnlyInvariant_counterexample :
    smCapacity (ensureCapacitySeq initSMAlloc [0]) = 1
    ∧ maxRequest [0] = 0
    ∧ smCapacity (ensureCapacitySeq initSMAlloc [0]) ≠ maxRequest [0] := by
  decide

/-- Claim C1 (amended): for every category (plain shadow-map buffers for
directional/spot, cube buffer for omni) and every request sequence, the
capacity after step `i` equals `max(1, n_1, ..., n_i)` where 1 is the
default-constructed capacity; the backing buffer object is replaced only at
a step whose request strictly exceeds every earlier request; and
re-requesting any `n` at most the current capacity leaves the allocator,
including its buffer object, identical. -/
theorem growOnlyInvariant (ns : List ℕ) (n : ℕ) :
    smCapacity (ensureCapacitySeq initSMAlloc ns) = Nat.max 1 (maxRequest ns)
    ∧ smCubeCapacity (ensureCubeCapacitySeq initSMCubeAlloc ns)
        = Nat.max 1 (maxRequest ns)
    ∧ (∀ a : SMAlloc, n ≤ smCapacity a → ensureCapacity a n = a)
    ∧ (∀ a : SMCubeAlloc, n ≤ smCubeCapacity a → ensureCubeCapacity a n = a)
    ∧ ((ensureCapacity (ensureCapacitySeq initSMAlloc ns) n).buf
          ≠ (ensureCapacitySeq initSMAlloc ns).buf → ∀ m ∈ ns, m < n)
    ∧ ((ensureCubeCapacity (ensureCubeCapacitySeq initSMCubeAlloc ns) n).buf
          ≠ (ensureCubeCapacitySeq initSMCubeAlloc ns).buf →
        ∀ m ∈ ns, m < n) := by
  have hcap : smCapacity (ensureCapacitySeq initSMAlloc ns)
      = Nat.max 1 (maxRequest ns) := by
    rw [smCapacity_ensureCapacitySeq, foldl_max_eq_max]
    rfl
  have hcube : smCubeCapacity (ensureCubeCapacitySeq initSMCubeAlloc ns)
      = Nat.max 1 (maxRequest ns) := by
    rw [smCubeCapacity_ensureCubeCapacitySeq, foldl_max_eq_max]
    rfl
  refine ⟨hcap, hcube, fun a h => ensureCapacity_of_le a n h,
    fun a h => ensureCubeCapacity_of_le a n h, ?_, ?_⟩
  · intro hne m hm
    have hlt := ensureCapacity_buf_changed _ _ hne
    rw [hcap] at hlt
    have h1 : m ≤ maxRequest ns := mem_le_maxRequest hm
    have h2 : maxRequest ns ≤ Nat.max 1 (maxRequest ns) :=
      Nat.le_max_right 1 (maxRequest ns)
    exact lt_of_le_of_lt (le_trans h1 h2) hlt
  · intro hne m hm
    have hlt := ensureCubeCapacity_buf_changed _ _ hne
    rw [hcube] at hlt
    have h1 : m ≤ maxRequest ns := mem_le_maxRequest hm
    have h2 : maxRequest ns ≤ Nat.max 1 (maxRequest ns) :=
      Nat.le_max_right 1 (maxRequest ns)
    exact lt_of_le_of_lt (le_trans h1 h2) hlt

/-- Witness for C1's amended theorem: a request `1 ≤` the default capacity
is an identity no-op. -/
theorem growOnlyInvariant_witness :
    ensureCapacity initSMAlloc 1 = initSMAlloc :=
  (growOnlyInvariant [] 1).2.2.1 initSMAlloc (by decide)

/-- Claim C2: for a list of shadow-mapped omni lights of which exactly `k`
survive frustum culling, the local `cameras` sequence has exactly `6 * k`
entries, the packed buffer exactly `k`; every camera's world-to-light-view
is some surviving light's world-to-local transform composed with one of the
six fixed face rotations, its light-view-to-projection is that light's
projection transform, and its world-to-projection is their composition. -/
theorem omniShadowPackingCounts (lights : List OmniLightNode)
    (world_to_projection world_to_view view_to_world : Mat) (k : ℕ)
    (hk : k = (omniSurvivors world_to_projection lights).length) :
    (processOmniLightsWithSM lights world_to_projection world_to_view
        view_to_world).2.length = 6 * k
    ∧ (processOmniLightsWithSM lights world_to_projection world_to_view
        view_to_world).1.length = k
    ∧ ∀ c ∈ (processOmniLightsWithSM lights world_to_projection world_to_view
        view_to_world).2,
        ∃ n ∈ omniSurvivors world_to_projection lights, ∃ R ∈ rotations,
          c.world_to_lview = matMul n.transform.worldToObject R
          ∧ c.lview_to_lprojection = n.light.viewToProjection
          ∧ c.world_to_lprojection
              = matMul c.world_to_lview c.lview_to_lprojection := by
  subst hk
  rw [processOmniLightsWithSM_eq]
  refine ⟨?_, ?_, ?_⟩
  · exact length_bind_omniLightCamerasOf _
  · simp
  · intro c hc
    simp only [List.mem_flatMap] at hc
    obtain ⟨n, hn, hcn⟩ := hc
    unfold omniLightCamerasOf at hcn
    rw [List.mem_map] at hcn
    obtain ⟨R, hR, rfl⟩ := hcn
    exact ⟨n, hn, R, hR, rfl, rfl, rfl⟩

/-- Witness for C2: one sample omni light surviving culling yields six
cameras. -/
theorem omniShadowPackingCounts_witness :
    (processOmniLightsWithSM [sampleOmniNode] matIdentity matIdentity
      matIdentity).2.length = 6 * 1 :=
  (omniShadowPackingCounts [sampleOmniNode] matIdentity matIdentity
    matIdentity 1 (by
      norm_num [omniSurvivors, omniCulled, ViewFrustumCullBS, frustumPlanes,
        planeDotCoord, v4add, v4scale, matMul, v4mulMat, sampleOmniNode,
        sampleTransform, matIdentity])).1

/-- Claim C3 counterexample: one shadow-mapped directional light yields zero
`LightCamera` entries, not "at least one": the source declares and reserves
the local `cameras` vector but the loop never pushes into it. -/
theorem directionalShadowCameras_counterexample :
    ¬ (1 ≤ (processDirectionalLightsWithSM [sampleDirectionalNode]
        matIdentity matIdentity).2.length) := by
  rw [processDirectionalLightsWithSM_eq]
  simp

/-- Claim C3 (amended): the shadow-mapped directional packing pass emits
exactly zero `LightCamera` entries for every input (no cascade generation
is implemented; the local `cameras` vector stays empty). -/
theorem directionalShadowCamerasEmpty (lights : List DirectionalLightNode)
    (world_to_view view_to_world : Mat) :
    (processDirectionalLightsWithSM lights world_to_view view_to_world).2
      = [] := by
  rw [processDirectionalLightsWithSM_eq]

/-- Claim C5: directional lights are never culled: in both the plain and the
shadow-mapped directional packing pass, the packed buffer is exactly one
element per input light, in input order (the image of the input list under
the per-node packing function). -/
theorem directionalNeverCulled (lights : List DirectionalLightNode)
    (world_to_view view_to_world : Mat) :
    processDirectionalLights lights world_to_view
        = lights.map (directionalLightBufferOf world_to_view)
    ∧ (processDirectionalLights lights world_to_view).length = lights.length
    ∧ (processDirectionalLightsWithSM lights world_to_view view_to_world).1
        = lights.map (directionalSMBufferOf world_to_view)
    ∧ (processDirectionalLightsWithSM lights world_to_view
        view_to_world).1.length = lights.length := by
  refine ⟨processDirectionalLights_eq lights world_to_view, ?_, ?_, ?_⟩
  · rw [processDirectionalLights_eq]
    simp
  · rw [processDirectionalLightsWithSM_eq]
  · rw [processDirectionalLightsWithSM_eq]
    simp

/-- Claim C6: if replacement construction fails, the allocator state (and in
particular the previously held buffer object) is unchanged, and the failure
is surfaced to the caller. -/
theorem allocFailurePreservesBuffer (alloc : ℕ → Bool) (a : SMAlloc)
    (n : ℕ) :
    (∀ e, (ensureCapacityFallible alloc a n).2 = some e →
        (ensureCapacityFallible alloc a n).1 = a
        ∧ (ensureCapacityFallible alloc a n).1.buf = a.buf)
    ∧ (smCapacity a < n → alloc n = false →
        ensureCapacityFallible alloc a n = (a, some ())) := by
  constructor
  · intro e he
    unfold ensureCapacityFallible at he ⊢
    by_cases h1 : a.buf.GetNumberOfShadowMaps < n
    · by_cases h2 : alloc n = true
      · simp [h1, h2] at he
      · simp [h1, h2]
    · simp [h1]
  · intro h1 h2
    unfold ensureCapacityFallible
    unfold smCapacity at h1
    rw [if_pos h1, if_neg]
    simp [h2]

/-- Witness for C6: a failing allocator on a growth request leaves the
default state untouched and surfaces the failure. -/
theorem allocFailurePreservesBuffer_witness :
    ensureCapacityFallible (fun _ => false) initSMAlloc 2
      = (initSMAlloc, some ()) :=
  (allocFailurePreservesBuffer (fun _ => false) initSMAlloc 2).2
    (by decide) (by decide)

/-- Claim C7: in the shadow-mapped spot packing pass, each surviving light
contributes exactly one `LightCamera` whose light-view-to-projection is that
light's own view-to-projection transform, whose world-to-light-view is its
world-to-local transform, and whose world-to-projection is their
composition; the packed buffer likewise has one element per survivor. -/
theorem spotShadowCameraPerSurvivor (lights : List SpotLightNode)
    (world_to_projection world_to_view view_to_world : Mat) :
    (processSpotLightsWithSM lights world_to_projection world_to_view
        view_to_world).2.length
      = (spotSurvivors world_to_projection lights).length
    ∧ (processSpotLightsWithSM lights world_to_projection world_to_view
        view_to_world).1.length
      = (spotSurvivors world_to_projection lights).length
    ∧ List.Forall₂
        (fun n c =>
          c.lview_to_lprojection = n.light.viewToProjection
          ∧ c.world_to_lview = n.transform.worldToObject
          ∧ c.world_to_lprojection
              = matMul c.world_to_lview c.lview_to_lprojection)
        (spotSurvivors world_to_projection lights)
        (processSpotLightsWithSM lights world_to_projection world_to_view
          view_to_world).2 := by
  rw [processSpotLightsWithSM_eq]
  refine ⟨by simp, by simp, ?_⟩
  simp only
  rw [List.forall₂_map_right_iff]
  rw [List.forall₂_same]
  intro n hn
  exact ⟨rfl, rfl, rfl⟩

/-- Claim C10: the `LightCamera` sequences of the three shadow-mapped
packing passes are local and discarded: each pass emits exactly one device
command (the update of its own shadow-light structured buffer, whose
payload is the packed light list, not the cameras), sets that structured
buffer to the packed list, and leaves every other member of the pass
unchanged except the possibly replaced shadow-map buffer of its own
category. -/
theorem shadowPassesLocalEffects (st : LBufferPassState)
    (dl : List DirectionalLightNode) (ol : List OmniLightNode)
    (sl : List SpotLightNode)
    (world_to_projection world_to_view view_to_world : Mat) :
    ((ProcessLightsWithShadowMappingDirectional st dl world_to_view
        view_to_world).2
      = [Command.updateStructured BufKind.smDir
          (processDirectionalLightsWithSM dl world_to_view
            view_to_world).1.length]
    ∧ (ProcessLightsWithShadowMappingDirectional st dl world_to_view
        view_to_world).1.sm_directional_lights
      = (processDirectionalLightsWithSM dl world_to_view view_to_world).1
    ∧ exceptDirShadowState (ProcessLightsWithShadowMappingDirectional st dl
        world_to_view view_to_world).1 = exceptDirShadowState st)
    ∧ ((ProcessLightsWithShadowMappingOmni st ol world_to_projection
        world_to_view view_to_world).2
      = [Command.updateStructured BufKind.smOmni
          (processOmniLightsWithSM ol world_to_projection world_to_view
            view_to_world).1.length]
    ∧ (ProcessLightsWithShadowMappingOmni st ol world_to_projection
        world_to_view view_to_world).1.sm_omni_lights
      = (processOmniLightsWithSM ol world_to_projection world_to_view
          view_to_world).1
    ∧ exceptOmniShadowState (ProcessLightsWithShadowMappingOmni st ol
        world_to_projection world_to_view view_to_world).1
      = exceptOmniShadowState st)
    ∧ ((ProcessLightsWithShadowMappingSpot st sl world_to_projection
        world_to_view view_to_world).2
      = [Command.updateStructured BufKind.smSpot
          (processSpotLightsWithSM sl world_to_projection world_to_view
            view_to_world).1.length]
    ∧ (ProcessLightsWithShadowMappingSpot st sl world_to_projection
        world_to_view view_to_world).1.sm_spot_lights
      = (processSpotLightsWithSM sl world_to_projection world_to_view
          view_to_world).1
    ∧ exceptSpotShadowState (ProcessLightsWithShadowMappingSpot st sl
        world_to_projection world_to_view view_to_world).1
      = exceptSpotShadowState st) := by
  refine ⟨⟨rfl, ?_, ?_⟩, ⟨rfl, ?_, ?_⟩, ⟨rfl, ?_, ?_⟩⟩
  · unfold ProcessLightsWithShadowMappingDirectional
      SetupDirectionalShadowMaps
    dsimp only
    split <;> rfl
  · unfold ProcessLightsWithShadowMappingDirectional
      SetupDirectionalShadowMaps exceptDirShadowState
    dsimp only
    split <;> rfl
  · unfold ProcessLightsWithShadowMappingOmni SetupOmniShadowMaps
    dsimp only
    split <;> rfl
  · unfold ProcessLightsWithShadowMappingOmni SetupOmniShadowMaps
      exceptOmniShadowState
    dsimp only
    split <;> rfl
  · unfold ProcessLightsWithShadowMappingSpot SetupSpotShadowMaps
    dsimp only
    split <;> rfl
  · unfold ProcessLightsWithShadowMappingSpot SetupSpotShadowMaps
      exceptSpotShadowState
    dsimp only
    split <;> rfl

/-- Claim C8: the full device-command trace of one `Render` call, in program
order: first the three no-shadow structured-buffer updates, then the null
binds of the three shadow-map SRV slots on both the pixel and the compute
stage (before any shadow-mapped light processing), then the three
shadow-light structured-buffer updates, then (after all six packing
updates) the aggregate stats upload, and finally the lighting constant
buffer and the identical nine-view SRV list bound to both stages. -/
theorem renderTraceShape (st : LBufferPassState) (f : FrameInput) :
    (Render st f).2
      = [Command.updateStructured BufKind.dir
           (processDirectionalLights f.scene.directional_lights
             f.world_to_view).length,
         Command.updateStructured BufKind.omni
           (processOmniLights f.scene.omni_lights f.world_to_projection
             f.world_to_view).length,
         Command.updateStructured BufKind.spot
           (processSpotLights f.scene.spot_lights f.world_to_projection
             f.world_to_view).length,
         Command.bindSRVs Stage.ps SLOT_SRV_SHADOW_MAPS_START
           [SRVRef.noView, SRVRef.noView, SRVRef.noView],
         Command.bindSRVs Stage.cs SLOT_SRV_SHADOW_MAPS_START
           [SRVRef.noView, SRVRef.noView, SRVRef.noView],
         Command.updateStructured BufKind.smDir
           (processDirectionalLightsWithSM f.scene.sm_directional_lights
             f.world_to_view f.view_to_world).1.length,
         Command.updateStructured BufKind.smOmni
           (processOmniLightsWithSM f.scene.sm_omni_lights
             f.world_to_projection f.world_to_view f.view_to_world).1.length,
         Command.updateStructured BufKind.smSpot
           (processSpotLightsWithSM f.scene.sm_spot_lights
             f.world_to_projection f.world_to_view f.view_to_world).1.length,
         Command.updateLightBuffer (Render st f).1.light_buffer,
         Command.bindConstantBuffer Stage.ps SLOT_CBUFFER_LIGHTING,
         Command.bindConstantBuffer Stage.cs SLOT_CBUFFER_LIGHTING,
         Command.bindSRVs Stage.ps SLOT_SRV_LIGHTS_START
           (lbufferSRVs (Render st f).1),
         Command.bindSRVs Stage.cs SLOT_SRV_LIGHTS_START
           (lbufferSRVs (Render st f).1)] := by
  rfl

theorem SMInv_Render (st : LBufferPassState) (f : FrameInput)
    (h : SMInv st) : SMInv ((Render st f).1) := by
  unfold SMInv at h ⊢
  unfold Render ProcessLightsDirectional ProcessLightsOmni ProcessLightsSpot
    ProcessLightsWithShadowMappingDirectional
    ProcessLightsWithShadowMappingOmni ProcessLightsWithShadowMappingSpot
    ProcessLightsData SetupDirectionalShadowMaps SetupOmniShadowMaps
    SetupSpotShadowMaps mkShadowMapBuffer mkShadowCubeMapBuffer
    ShadowMapBuffer.GetNumberOfShadowMaps
    ShadowCubeMapBuffer.GetNumberOfShadowCubeMaps
  dsimp only
  split_ifs <;> simp_all <;> omega

theorem SMInv_renderFrames (frames : List FrameInput)
    (st : LBufferPassState) (h : SMInv st) :
    SMInv (renderFrames st frames) := by
  induction frames generalizing st with
  | nil => exact h
  | cons f fs ih =>
      exact ih ((Render st f).1) (SMInv_Render st f h)

/-- Claim C9: each shadow-map buffer is default-constructed with one shadow
map (one cube map, six slices, for the omni category), and after any
sequence of rendered frames every category still holds at least one shadow
map (`GetNumberOfShadowMaps` / `GetNumberOfShadowCubeMaps` never returns
0), with the cube buffer's slice count always exactly six times its
cube-map count. -/
theorem shadowCapacityAtLeastOne (frames : List FrameInput) :
    initLBufferPassState.directional_sms.GetNumberOfShadowMaps = 1
    ∧ initLBufferPassState.omni_sms.GetNumberOfShadowCubeMaps = 1
    ∧ initLBufferPassState.omni_sms.GetNumberOfShadowMaps = 6
    ∧ initLBufferPassState.spot_sms.GetNumberOfShadowMaps = 1
    ∧ 1 ≤ (renderFrames initLBufferPassState
        frames).directional_sms.GetNumberOfShadowMaps
    ∧ 1 ≤ (renderFrames initLBufferPassState
        frames).omni_sms.GetNumberOfShadowCubeMaps
    ∧ 1 ≤ (renderFrames initLBufferPassState
        frames).spot_sms.GetNumberOfShadowMaps
    ∧ (renderFrames initLBufferPassState frames).omni_sms.GetNumberOfShadowMaps
        = 6 * (renderFrames initLBufferPassState
            frames).omni_sms.GetNumberOfShadowCubeMaps := by
  have hinv : SMInv (renderFrames initLBufferPassState frames) :=
    SMInv_renderFrames frames initLBufferPassState
      (by
        unfold SMInv initLBufferPassState mkShadowMapBuffer
          mkShadowCubeMapBuffer
        norm_num)
  obtain ⟨h1, h2, h3, h4⟩ := hinv
  unfold ShadowMapBuffer.GetNumberOfShadowMaps
    ShadowCubeMapBuffer.GetNumberOfShadowMaps
    ShadowCubeMapBuffer.GetNumberOfShadowCubeMaps at *
  refine ⟨rfl, rfl, rfl, rfl, h1, ?_, h2, ?_⟩ <;> omega

/-- Claim C4: after a frame's packing completes, each of the six count
fields of the aggregate stats buffer equals the length of the corresponding
packed element sequence produced this frame after culling (for the culled
categories this is the survivor count, not the pre-cull input length). The
hypotheses record that each per-frame element count fits in the `uint32_t`
count field. -/
theorem statsCountsMatchPacked (st : LBufferPassState) (f : FrameInput)
    (h1 : (processDirectionalLights f.scene.directional_lights
        f.world_to_view).length < 2 ^ 32)
    (h2 : (processOmniLights f.scene.omni_lights f.world_to_projection
        f.world_to_view).length < 2 ^ 32)
    (h3 : (processSpotLights f.scene.spot_lights f.world_to_projection
        f.world_to_view).length < 2 ^ 32)
    (h4 : (processDirectionalLightsWithSM f.scene.sm_directional_lights
        f.world_to_view f.view_to_world).1.length < 2 ^ 32)
    (h5 : (processOmniLightsWithSM f.scene.sm_omni_lights
        f.world_to_projection f.world_to_view
        f.view_to_world).1.length < 2 ^ 32)
    (h6 : (processSpotLightsWithSM f.scene.sm_spot_lights
        f.world_to_projection f.world_to_view
        f.view_to_world).1.length < 2 ^ 32) :
    (Render st f).1.light_buffer.nb_directional_lights
        = (processDirectionalLights f.scene.directional_lights
            f.world_to_view).length
    ∧ (Render st f).1.light_buffer.nb_omni_lights
        = (processOmniLights f.scene.omni_lights f.world_to_projection
            f.world_to_view).length
    ∧ (Render st f).1.light_buffer.nb_spot_lights
        = (processSpotLights f.scene.spot_lights f.world_to_projection
            f.world_to_view).length
    ∧ (Render st f).1.light_buffer.nb_sm_directional_lights
        = (processDirectionalLightsWithSM f.scene.sm_directional_lights
            f.world_to_view f.view_to_world).1.length
    ∧ (Render st f).1.light_buffer.nb_sm_omni_lights
        = (processOmniLightsWithSM f.scene.sm_omni_lights
            f.world_to_projection f.world_to_view f.view_to_world).1.length
    ∧ (Render st f).1.light_buffer.nb_sm_spot_lights
        = (processSpotLightsWithSM f.scene.sm_spot_lights
            f.world_to_projection f.world_to_view
            f.view_to_world).1.length := by
  unfold Render ProcessLightsDirectional ProcessLightsOmni ProcessLightsSpot
    ProcessLightsWithShadowMappingDirectional
    ProcessLightsWithShadowMappingOmni ProcessLightsWithShadowMappingSpot
    ProcessLightsData SetupDirectionalShadowMaps SetupOmniShadowMaps
    SetupSpotShadowMaps
  dsimp only
  split_ifs <;>
    exact ⟨Nat.mod_eq_of_lt h1, Nat.mod_eq_of_lt h2, Nat.mod_eq_of_lt h3,
      Nat.mod_eq_of_lt h4, Nat.mod_eq_of_lt h5, Nat.mod_eq_of_lt h6⟩

/-- Witness for C4 at the empty scene. -/
theorem statsCountsMatchPacked_witness :
    (Render initLBufferPassState sampleFrame).1.light_buffer.nb_directional_lights
      = (processDirectionalLights sampleFrame.scene.directional_lights
          sampleFrame.world_to_view).length :=
  (statsCountsMatchPacked initLBufferPassState sampleFrame (by decide)
    (by decide) (by decide) (by decide) (by decide) (by decide)).1

end MAGE
